import Mathlib

/-!
Verification of `geomstats/special_euclidean_group.py` (the SE(3) Lie-group
module) against its natural-language specification.

Group elements are 6-vectors `[r t]` with a rotation vector `r` and a
translation `t`.  The module delegates rotation-vector canonicalization and
rotation-vector/matrix conversions to an SO(3) collaborator module that is part
of the repository but not shipped with the source under verification; that
collaborator is therefore modelled from the spec, either abstractly (a
`RotationPrimitives` parameter together with the laws the spec promises for it)
or concretely (`specCanonicalize`).  Everything else is translated directly
from the Python source.  Python-level failures (calling a non-callable,
attribute lookups that cannot succeed, missing required arguments) are made
explicit with `Except PyErr`.
-/

open Real

abbrev V3 : Type := Fin 3 → ℝ

abbrev V6 : Type := Fin 6 → ℝ

abbrev M3 : Type := Matrix (Fin 3) (Fin 3) ℝ

abbrev M6 : Type := Matrix (Fin 6) (Fin 6) ℝ

/-- The slice `transfo[0:3]` of a 6-vector: its rotation-vector block. -/
def rotPart (p : V6) : V3 := fun i => p (Fin.castLE (by norm_num) i)

/-- The slice `transfo[3:6]` of a 6-vector: its translation block. -/
def transPart (p : V6) : V3 := fun i => p (i.addNat 3)

/-- Concatenation `[r t]` of a rotation block and a translation block into a
6-vector (`np.concatenate`, or writing the two slices of a fresh array). -/
def build6 (r t : V3) : V6 := fun i =>
  if h : (i : ℕ) < 3 then r ⟨i, h⟩ else t ⟨(i : ℕ) - 3, by have := i.isLt; omega⟩

/-- Python-level run-time errors raised by the source. -/
inductive PyErr
  | attributeError
  | typeError
  | assertionError
  | nameError
  | valueError
  | indexError
  deriving DecidableEq

/-- Source line 11: `EPSILON = 1e-5`, the small-angle branch threshold. -/
noncomputable def EPSILON : ℝ := 1e-5

/-- `np.linalg.norm` of a 3-vector. -/
noncomputable def norm3 (v : V3) : ℝ := Real.sqrt (v 0 ^ 2 + v 1 ^ 2 + v 2 ^ 2)

/-- Modelled from the spec: `skew_matrix_from_vector` of the SO(3) collaborator
module (not under the source tree) — the skew-symmetric generator of a 3-vector
under the cross-product action (spec glossary). -/
def skew (v : V3) : M3 :=
  Matrix.of ![![0, -(v 2), v 1], ![v 2, 0, -(v 0)], ![-(v 1), v 0, 0]]

/-- Modelled from the spec: the `regularize` of the SO(3) collaborator
(canonicalize), which reduces a rotation vector to its shortest representative,
with magnitude in the canonical range `[0, π]` (spec sections 2, 3 and the
glossary): the angle is translated by the multiple of `2π` that brings it into
`(-π, π]`, and the vector is rescaled accordingly. -/
noncomputable def specCanonicalize (v : V3) : V3 :=
  if norm3 v = 0 then v
  else ((norm3 v - 2 * π * (⌈norm3 v / (2 * π) - 1 / 2⌉ : ℤ)) / norm3 v) • v

/-- The abstract interface of the SO(3) collaborator module consumed by the
source (spec section 6), modelled from the spec because that module is
repository code not under the source tree. -/
structure RotationPrimitives where
  regularize : V3 → V3
  matrix_from_rotation_vector : V3 → M3
  rotation_vector_from_matrix : M3 → V3
  closest_rotation_matrix : M3 → M3
  riemannian_mean : ℕ → (ℕ → V3) → (ℕ → ℝ) → V3

/-- Modelled from the spec: the guarantees the spec gives for the SO(3)
collaborator (spec sections 2, 4.2, 6): canonicalization fixes the zero vector
and is closed under negation (it only constrains the magnitude, which negation
preserves); rotation matrices of opposite rotation vectors are inverse to each
other; projection to the nearest rotation fixes an exact rotation matrix; the
rotation vector of the identity matrix is zero. -/
structure LawfulRotationPrimitives (R : RotationPrimitives) : Prop where
  regularize_zero : R.regularize 0 = 0
  regularize_neg : ∀ v, R.regularize v = v → R.regularize (-v) = -v
  matrix_mul_neg : ∀ v,
    R.matrix_from_rotation_vector v * R.matrix_from_rotation_vector (-v) = 1
  closest_of_matrix : ∀ v,
    R.closest_rotation_matrix (R.matrix_from_rotation_vector v) =
      R.matrix_from_rotation_vector v
  vector_of_one : R.rotation_vector_from_matrix 1 = 0

/-- A degenerate but law-abiding instance of the collaborator interface, used
to instantiate conditional theorems at concrete inputs. -/
def trivialRotations : RotationPrimitives where
  regularize := fun v => v
  matrix_from_rotation_vector := fun _ => 1
  rotation_vector_from_matrix := fun _ => 0
  closest_rotation_matrix := fun m => m
  riemannian_mean := fun _ _ _ => 0

/-- Source `regularize` (lines 40-55), value level: canonicalize the rotation
block, keep the translation block. -/
def regularize (canon : V3 → V3) (transfo : V6) : V6 :=
  build6 (canon (rotPart transfo)) (transPart transfo)

/-- Source: `self.identity = np.concatenate([self.rotations.identity, [0,0,0]])`
(lines 23-24); the rotation identity is the zero rotation vector. -/
def identity : V6 := build6 0 0

/-- Source `inverse` (lines 57-79): regularize, negate the rotation vector,
rotate the negated translation by the inverse rotation, regularize the result. -/
def inverse (R : RotationPrimitives) (transfo : V6) : V6 :=
  let t' := regularize R.regularize transfo
  let rot_vec := rotPart t'
  let translation := transPart t'
  regularize R.regularize
    (build6 (-rot_vec)
      ((R.matrix_from_rotation_vector (-rot_vec)).mulVec (-translation)))

/-- Source `compose` (lines 81-113): convert both rotation vectors to matrices,
project each to the closest rotation matrix, multiply, convert back, and set
the translation to `R1 t2 + t1`; the result is regularized. -/
def compose (R : RotationPrimitives) (transfo_1 transfo_2 : V6) : V6 :=
  let rot_mat_1 :=
    R.closest_rotation_matrix (R.matrix_from_rotation_vector (rotPart transfo_1))
  let rot_mat_2 :=
    R.closest_rotation_matrix (R.matrix_from_rotation_vector (rotPart transfo_2))
  regularize R.regularize
    (build6 (R.rotation_vector_from_matrix (rot_mat_1 * rot_mat_2))
      (rot_mat_1.mulVec (transPart transfo_2) + transPart transfo_1))

/-- `coef_1` of `group_exp` (source lines 178-186): `0` at zero angle,
`1/2 - angle**2/12` below the threshold, `(1 - cos angle)/angle**2` otherwise. -/
noncomputable def exp_coef_1 (angle epsilon : ℝ) : ℝ :=
  if angle = 0 then 0
  else if angle < epsilon then 1 / 2 - angle ^ 2 / 12
  else (1 - Real.cos angle) / angle ^ 2

/-- `coef_2` of `group_exp` (source lines 178-186): `0` at zero angle,
`1 - angle**3/3` below the threshold, `(angle - sin angle)/angle**3` otherwise. -/
noncomputable def exp_coef_2 (angle epsilon : ℝ) : ℝ :=
  if angle = 0 then 0
  else if angle < epsilon then 1 - angle ^ 3 / 3
  else (angle - Real.sin angle) / angle ^ 3

/-- The `ref_point is self.identity` branch of `group_exp` (source lines
168-193), applied to an already regularized tangent vector: the rotation block
passes through, the translation becomes `t + c1·S t + c2·S² t`. -/
noncomputable def group_exp_from_identity (tangent_vector : V6) (epsilon : ℝ) : V6 :=
  let rot_vec := rotPart tangent_vector
  let translation := transPart tangent_vector
  let angle := norm3 rot_vec
  let skew_mat := skew rot_vec
  build6 rot_vec
    (translation + exp_coef_1 angle epsilon • skew_mat.mulVec translation
      + exp_coef_2 angle epsilon • (skew_mat * skew_mat).mulVec translation)

/-- Source `group_exp` (lines 154-209).  The tangent vector is regularized
first; at the identity the closed-form branch applies and the result is
regularized again.  At any other reference point the source reaches
`self.group_exp(tangent_vector_at_identity)` (line 203), a call that omits the
required `ref_point` argument and therefore raises `TypeError`. -/
noncomputable def group_exp (canon : V3 → V3) (tangent_vector ref_point : V6)
    (epsilon : ℝ) : Except PyErr V6 :=
  let tv := regularize canon tangent_vector
  if ref_point = identity then
    .ok (regularize canon (group_exp_from_identity tv epsilon))
  else .error .typeError

/-- `coef_1` of `group_log` (source lines 235-247): `0` at zero angle and
`-0.5` on both other branches. -/
noncomputable def log_coef_1 (angle epsilon : ℝ) : ℝ :=
  if angle = 0 then 0
  else if angle < epsilon then -0.5
  else -0.5

/-- `coef_2` of `group_log` (source lines 235-247): `0` at zero angle,
`0.5 - angle**2/90` below the threshold, and otherwise the closed form
`(1 - psi)/angle**2` with `psi = 0.5·angle·sin angle/(1 - cos angle)`.  There
is no separate branch for angles near `π`. -/
noncomputable def log_coef_2 (angle epsilon : ℝ) : ℝ :=
  if angle = 0 then 0
  else if angle < epsilon then 0.5 - angle ^ 2 / 90
  else (1 - 0.5 * angle * Real.sin angle / (1 - Real.cos angle)) / angle ^ 2

/-- The `ref_point is self.identity` branch of `group_log` (source lines
225-252), applied to the already regularized point: the rotation block passes
through, the translation becomes `t + c1·S t + c2·S² t`.  (The assignment
`tangent_vector[3:6] = translation` inside the zero-angle arm, line 238, is
overwritten by the unconditional assignment on line 249; with both
coefficients zero and a zero skew matrix the value is the same.) -/
noncomputable def group_log_from_identity (transfo : V6) (epsilon : ℝ) : V6 :=
  let rot_vec := rotPart transfo
  let translation := transPart transfo
  let angle := norm3 rot_vec
  let skew_rot_vec := skew rot_vec
  build6 rot_vec
    (translation + log_coef_1 angle epsilon • skew_rot_vec.mulVec translation
      + log_coef_2 angle epsilon • (skew_rot_vec * skew_rot_vec).mulVec translation)

/-- Source `group_log` (lines 211-261).  The point is regularized first; from
the identity the closed-form branch applies.  From any other reference point
the first statement of the branch is `self.jacobiance_translation(...)`
(line 255) — a misspelling of `jacobian_translation`, so the attribute lookup
raises `AttributeError` (and the later recursive call
`self.group_log(transfo_near_id)`, line 258, would also omit the required
`ref_point` argument). -/
noncomputable def group_log (canon : V3 → V3) (transfo ref_point : V6)
    (epsilon : ℝ) : Except PyErr V6 :=
  let t' := regularize canon transfo
  if ref_point = identity then .ok (group_log_from_identity t' epsilon)
  else .error .attributeError

/-- The `metric_matrix` argument of `square_riemannian_norm` as a Python value:
either a plain matrix (as the module-level default `ALGEBRA_CANONICAL_INNER_PRODUCT
= np.eye(6)` is) or something callable.  Calling a matrix raises `TypeError`. -/
inductive MetricArg
  | arrVal (m : M6)
  | funcVal (f : V6 → String → M6)

/-- Source line 12: `ALGEBRA_CANONICAL_INNER_PRODUCT = np.eye(6)` — a plain
`6×6` identity matrix, not a callable. -/
def ALGEBRA_CANONICAL_INNER_PRODUCT : MetricArg := .arrVal 1

/-- Source `square_riemannian_norm` (lines 263-295).  After the assertion on
`left_or_right` (whose default value, the string `left_or_right`, itself fails the
assertion), the body evaluates `metric_matrix(ref_point=..., ...)`: when the
`metric_matrix` argument is a numpy array — as its default is — that call
raises `TypeError`, so the normal return `v·(M v)` is reached only for a
callable metric. -/
noncomputable def square_riemannian_norm (canon : V3 → V3)
    (ref_point tangent_vector : V6) (left_or_right : String)
    (metric_matrix : MetricArg) : Except PyErr ℝ :=
  if left_or_right = "left" ∨ left_or_right = "right" then
    match metric_matrix with
    | .arrVal _ => .error .typeError
    | .funcVal f =>
        let tv := regularize canon tangent_vector
        let rp := regularize canon ref_point
        .ok (Matrix.dotProduct tv ((f rp left_or_right).mulVec tv))
  else .error .assertionError

/-- Modelled from the spec: the Riemannian log, Riemannian exp and squared
Riemannian norm collaborators.  The names `riemannian_log` and
`riemannian_exp` referenced by `riemannian_variance` and `riemannian_mean`
(source lines 425, 469, 474, 479) are repository functionality that is not
defined anywhere under the source tree, so they are kept abstract; the spec
(section 4.7) only requires the squared norm to be of the form `vᵀ M v`. -/
structure MeanOps where
  riemannian_log : V6 → V6 → V6
  riemannian_exp : V6 → V6 → V6
  square_norm : V6 → ℝ

/-- Source `riemannian_variance` (lines 393-435): for `n < 2` it logs a message
and returns `0`; otherwise it accumulates `weight_i · ‖log(point_i, ref)‖²`
for `i` in `range(1, n_transformations)` — the index starts at `1`, so the
first data point never contributes. -/
noncomputable def riemannian_variance (ops : MeanOps) (ref_point : V6) (n : ℕ)
    (transfo_vectors : ℕ → V6) (weights : ℕ → ℝ) : ℝ :=
  if n < 2 then 0
  else ∑ i ∈ Finset.Ico 1 n,
    weights i * ops.square_norm (ops.riemannian_log (transfo_vectors i) ref_point)

/-- One pass of the `while True` body of `riemannian_mean` (source lines
462-477): accumulate the weighted logs of all points at the current estimate
and move the estimate by the Riemannian exponential of the accumulated vector. -/
noncomputable def mean_step (ops : MeanOps) (n : ℕ) (transfo_vectors : ℕ → V6)
    (weights : ℕ → ℝ) (riem_mean : V6) : V6 :=
  ops.riemannian_exp
    (∑ i ∈ Finset.range n,
      weights i • ops.riemannian_log (transfo_vectors i) riem_mean)
    riem_mean

/-- The successive estimates of `riemannian_mean`: the source starts from
`transfo_vectors[0, :]` (line 460) and iterates the loop body. -/
noncomputable def mean_seq (ops : MeanOps) (n : ℕ) (transfo_vectors : ℕ → V6)
    (weights : ℕ → ℝ) : ℕ → V6
  | 0 => transfo_vectors 0
  | k + 1 => mean_step ops n transfo_vectors weights
      (mean_seq ops n transfo_vectors weights k)

/-- The convergence test of iteration `k` (source lines 479-490): the squared
norm of the log of the new estimate at the previous one is below
`epsilon · variance(previous estimate)`.  The `while True` loop exits if and
only if this holds for some `k`; there is no iteration cap. -/
noncomputable def mean_converged_at (ops : MeanOps) (n : ℕ)
    (transfo_vectors : ℕ → V6) (weights : ℕ → ℝ) (epsilon : ℝ) (k : ℕ) : Prop :=
  ops.square_norm
      (ops.riemannian_log (mean_seq ops n transfo_vectors weights (k + 1))
        (mean_seq ops n transfo_vectors weights k)) <
    epsilon * riemannian_variance ops (mean_seq ops n transfo_vectors weights k)
      n transfo_vectors weights

/-- The loop of `riemannian_mean` returns exactly when some iteration passes the
convergence test; the source has no other exit from `while True`. -/
noncomputable def riemannian_mean_terminates (ops : MeanOps) (n : ℕ)
    (transfo_vectors : ℕ → V6) (weights : ℕ → ℝ) (epsilon : ℝ) : Prop :=
  ∃ k, mean_converged_at ops n transfo_vectors weights epsilon k

/-- What `riemannian_mean` (source lines 438-460) does before entering its
loop: the assertion on `left_or_right`, then `riem_mean = transfo_vectors[0, :]`
(an `IndexError` on an empty batch).  A batch with fewer than two points only
triggers `logging.info(...)` — no exception is raised and execution proceeds
into the loop. -/
def riemannian_mean_pre (n : ℕ) (left_or_right : String) : Except PyErr Unit :=
  if left_or_right = "left" ∨ left_or_right = "right" then
    if n = 0 then .error .indexError else .ok ()
  else .error .assertionError

/-- Source `exponential_matrix` (lines 312-342): Rodrigues-style closed form
with the three-branch coefficient scheme of that function. -/
noncomputable def exponential_matrix (R : RotationPrimitives) (rot_vec : V3)
    (epsilon : ℝ) : M3 :=
  let v := R.regularize rot_vec
  let angle := norm3 v
  let skew_rot_vec := skew v
  let coef_1 : ℝ :=
    if angle = 0 then 0
    else if angle < epsilon then 1 / 2 - angle ^ 2 / 24
    else (angle ^ 2)⁻¹ * (1 - Real.cos angle)
  let coef_2 : ℝ :=
    if angle = 0 then 0
    else if angle < epsilon then 1 / 6 - angle ^ 3 / 120
    else (angle ^ 2)⁻¹ * (1 - Real.sin angle / angle)
  1 + coef_1 • skew_rot_vec + coef_2 • (skew_rot_vec * skew_rot_vec)

/-- Source `exponential_barycenter` (lines 345-390): raises `ValueError` when
the batch has fewer than two transformations; otherwise computes the rotation
mean through the collaborator and accumulates, for each input, the inverse of
the matrix exponential taking the rotation of that input to the mean rotation,
solving for the mean translation at the end. -/
noncomputable def exponential_barycenter (R : RotationPrimitives) (n : ℕ)
    (transfo_vectors : ℕ → V6) (weights : ℕ → ℝ) (epsilon : ℝ) :
    Except PyErr V6 :=
  if n < 2 then .error .valueError
  else
    let rotation_vectors := fun i => rotPart (transfo_vectors i)
    let translations := fun i => transPart (transfo_vectors i)
    let mean_rotation := R.riemannian_mean n rotation_vectors weights
    let mean_rotation_mat := R.matrix_from_rotation_vector mean_rotation
    let matrix_aux := fun i =>
      (exponential_matrix R
        (R.rotation_vector_from_matrix
          (mean_rotation_mat *
            R.matrix_from_rotation_vector (-(rotation_vectors i))))
        epsilon)⁻¹
    let matrix := ∑ i ∈ Finset.range n, weights i • matrix_aux i
    let translation := ∑ i ∈ Finset.range n,
      weights i •
        (matrix_aux i *
          R.matrix_from_rotation_vector (-(rotation_vectors i))).mulVec
          (translations i)
    .ok (build6 mean_rotation (matrix⁻¹.mulVec translation))

/-- A numpy-array heap: array addresses mapped to 6-vector contents, for the
mutation claims. -/
def Store : Type := ℕ → V6

/-- Source `regularize` at the heap level (lines 40-55):
`regularized_transfo = transfo` binds the same array, and
`regularized_transfo[0:3] = self.rotations.regularize(rot_vec)` writes the
canonical rotation block into that array in place; the function returns the
address it was given, not a fresh array. -/
noncomputable def regularizeS (canon : V3 → V3) (σ : Store) (a : ℕ) :
    Store × ℕ :=
  (fun b => if b = a then regularize canon (σ a) else σ b, a)

/-- Modelled from the spec: a concrete instance of the `MeanOps` collaborators.
On pure translations — the only points the theorems below feed it — the
exponential and logarithm of the spec (sections 4.4, 4.5: identity Jacobian, zero rotation
coefficients) reduce to vector addition and subtraction, and the squared norm
with the default `np.eye(6)` metric is the plain Euclidean one. -/
def euclidOps : MeanOps where
  riemannian_log := fun transfo ref_point => transfo - ref_point
  riemannian_exp := fun tangent ref_point => ref_point + tangent
  square_norm := fun v => ∑ j, v j ^ 2

/-- The two-point batch (the identity and a unit pure translation) on which the
iterative mean oscillates forever. -/
noncomputable def oscBatch : ℕ → V6 :=
  fun i => if i = 0 then identity else build6 0 ![1, 0, 0]

/-- The two-point batch used to exhibit the skipped first data point of
`riemannian_variance`. -/
noncomputable def varBatch : ℕ → V6 :=
  fun i => if i = 0 then build6 0 ![1, 0, 0] else build6 0 ![2, 0, 0]

/-- A heap whose array 0 holds a transformation with a non-canonical rotation
block (angle 4 > π). -/
noncomputable def mutState : Store := fun _ => build6 ![4, 0, 0] ![1, 2, 3]

/-- A heap whose array 0 holds a transformation with a canonical rotation block
(angle 1 ≤ π). -/
noncomputable def calmState : Store := fun _ => build6 ![1, 0, 0] ![5, 6, 7]

theorem rotPart_build6 (r t : V3) : rotPart (build6 r t) = r := by
  funext i
  unfold rotPart build6
  split
  case isTrue h => exact congrArg r (Fin.ext (by simp))
  case isFalse h => exact absurd i.isLt h

theorem transPart_build6 (r t : V3) : transPart (build6 r t) = t := by
  funext i
  unfold transPart build6
  split
  case isTrue h => exact absurd h (by simp)
  case isFalse h => exact congrArg t (Fin.ext (by simp))

theorem build6_eta (p : V6) : build6 (rotPart p) (transPart p) = p := by
  funext i
  unfold build6 rotPart transPart
  split
  case isTrue h => exact congrArg p (Fin.ext (by simp))
  case isFalse h => exact congrArg p (Fin.ext (by simp; omega))

theorem identity_eq_zero : identity = (0 : V6) := by
  funext i
  unfold identity build6
  split <;> rfl

theorem norm3_zero : norm3 (0 : V3) = 0 := by
  simp [norm3]

theorem norm3_nonneg (v : V3) : 0 ≤ norm3 v := Real.sqrt_nonneg _

theorem norm3_single (c : ℝ) (hc : 0 ≤ c) : norm3 ![c, 0, 0] = c := by
  simp only [norm3, Matrix.cons_val_zero, Matrix.cons_val_one, Matrix.head_cons]
  rw [show ((![c, 0, 0] : V3) 2) = 0 from rfl]
  rw [show c ^ 2 + (0:ℝ) ^ 2 + (0:ℝ) ^ 2 = c ^ 2 by ring]
  exact Real.sqrt_sq hc

/-- A canonical rotation vector (magnitude at most `π`) is fixed by the
spec-modelled canonicalization. -/
theorem specCanonicalize_fixed (v : V3) (h : norm3 v ≤ π) :
    specCanonicalize v = v := by
  unfold specCanonicalize
  by_cases h0 : norm3 v = 0
  · rw [if_pos h0]
  · rw [if_neg h0]
    have hpos : 0 < norm3 v := lt_of_le_of_ne (norm3_nonneg v) (Ne.symm h0)
    have hceil : (⌈norm3 v / (2 * π) - 1 / 2⌉ : ℤ) = 0 := by
      rw [Int.ceil_eq_iff]
      constructor
      · have : (0:ℝ) < norm3 v / (2 * π) := by positivity
        push_cast
        linarith
      · push_cast
        have h2π : (0:ℝ) < 2 * π := by positivity
        rw [sub_nonpos, div_le_div_iff₀ h2π (by norm_num : (0:ℝ) < 2)]
        linarith
    rw [hceil]
    push_cast
    rw [mul_zero, sub_zero, div_self h0, one_smul]

theorem specCanonicalize_zero : specCanonicalize 0 = 0 :=
  specCanonicalize_fixed 0 (by rw [norm3_zero]; exact Real.pi_nonneg)

/-- Claim C1: for a tangent vector at the identity whose rotation part has norm
`θ` with `0 < θ` below the small-angle threshold, the claim says `group_exp`
uses the 4th-order series `c1 = 1/2 - θ²/24 + θ⁴/720`,
`c2 = 1/6 - θ²/120 + θ⁴/5040`.  The source instead computes
`c1 = 1/2 - θ²/12` and `c2 = 1 - θ³/3` (lines 181-183); at `θ = 1/200000`
both code values are shown and both differ from the claimed series values. -/
theorem C1_small_angle_coefficients_bug :
    (0 : ℝ) < 1 / 200000 ∧ (1 / 200000 : ℝ) < EPSILON ∧
    exp_coef_1 (1 / 200000) EPSILON = 1 / 2 - (1 / 200000 : ℝ) ^ 2 / 12 ∧
    exp_coef_2 (1 / 200000) EPSILON = 1 - (1 / 200000 : ℝ) ^ 3 / 3 ∧
    exp_coef_1 (1 / 200000) EPSILON ≠
      1 / 2 - (1 / 200000 : ℝ) ^ 2 / 24 + (1 / 200000 : ℝ) ^ 4 / 720 ∧
    exp_coef_2 (1 / 200000) EPSILON ≠
      1 / 6 - (1 / 200000 : ℝ) ^ 2 / 120 + (1 / 200000 : ℝ) ^ 4 / 5040 := by
  have h1 : exp_coef_1 (1 / 200000) EPSILON = 1 / 2 - (1 / 200000 : ℝ) ^ 2 / 12 := by
    unfold exp_coef_1 EPSILON
    rw [if_neg (by norm_num), if_pos (by norm_num)]
  have h2 : exp_coef_2 (1 / 200000) EPSILON = 1 - (1 / 200000 : ℝ) ^ 3 / 3 := by
    unfold exp_coef_2 EPSILON
    rw [if_neg (by norm_num), if_pos (by norm_num)]
  refine ⟨by norm_num, by unfold EPSILON; norm_num, h1, h2, ?_, ?_⟩
  · rw [h1]; norm_num
  · rw [h2]; norm_num

/-- Claim C5: with its default metric argument — the module-level constant
`np.eye(6)`, a plain array — `square_riemannian_norm` raises an error before
returning, for every reference point, tangent vector and side string: the
side assertion fails for an invalid side, and otherwise the call
`metric_matrix(...)` on the non-callable array raises `TypeError`; the normal
return is unreachable. -/
theorem C5_default_metric_errors :
    ∀ (canon : V3 → V3) (ref_point tangent_vector : V6) (left_or_right : String),
      ∃ e, square_riemannian_norm canon ref_point tangent_vector left_or_right
        ALGEBRA_CANONICAL_INNER_PRODUCT = .error e := by
  intro canon rp tv side
  unfold square_riemannian_norm ALGEBRA_CANONICAL_INNER_PRODUCT
  by_cases h : side = "left" ∨ side = "right"
  · exact ⟨.typeError, by rw [if_pos h]⟩
  · exact ⟨.assertionError, by rw [if_neg h]⟩

/-- Claim C9 (code bug): `group_log` from the non-identity base point
`[1,0,0,0,0,0]` does not return the Jacobian applied to the identity-logarithm
of `compose(inverse(b), p)`: the first statement of that branch looks up the
misspelled attribute `jacobiance_translation`, so the call raises
`AttributeError`. -/
theorem C9_nonidentity_log_crashes :
    group_log specCanonicalize identity (build6 ![1, 0, 0] ![0, 0, 0]) EPSILON =
      .error .attributeError := by
  have hne : build6 ![1, 0, 0] ![0, 0, 0] ≠ identity := by
    intro h
    have h3 : (![1, 0, 0] : V3) = 0 := by
      have h' := congrArg rotPart h
      rwa [rotPart_build6, show identity = build6 0 0 from rfl,
        rotPart_build6] at h'
    have h0 := congrFun h3 0
    simp at h0
  unfold group_log
  rw [if_neg hne]

/-- Claim C10: `group_exp` at the identity of the tangent vector
`[0,0,0,1,2,3]` (zero rotation part) returns exactly `[0,0,0,1,2,3]`: both
correction coefficients are zero at zero angle and the translation passes
through unchanged. -/
theorem C10_exp_of_zero_rotation :
    group_exp specCanonicalize (build6 ![0, 0, 0] ![1, 2, 3]) identity EPSILON =
      .ok (build6 ![0, 0, 0] ![1, 2, 3]) := by
  have hz : norm3 ![0, 0, 0] = 0 := by
    simp [norm3]
  have hreg : regularize specCanonicalize (build6 ![0, 0, 0] ![1, 2, 3]) =
      build6 ![0, 0, 0] ![1, 2, 3] := by
    unfold regularize
    rw [rotPart_build6, transPart_build6]
    unfold specCanonicalize
    rw [if_pos hz]
  have hexp : group_exp_from_identity (build6 ![0, 0, 0] ![1, 2, 3]) EPSILON =
      build6 ![0, 0, 0] ![1, 2, 3] := by
    unfold group_exp_from_identity
    rw [rotPart_build6, transPart_build6]
    simp only [hz, show exp_coef_1 0 EPSILON = 0 from if_pos rfl,
      show exp_coef_2 0 EPSILON = 0 from if_pos rfl, zero_smul, add_zero]
  unfold group_exp
  rw [if_pos rfl, hreg, hexp, hreg]

theorem sum_sq_build6 (r t : V3) :
    ∑ j, build6 r t j ^ 2 =
      r 0 ^ 2 + r 1 ^ 2 + r 2 ^ 2 + (t 0 ^ 2 + t 1 ^ 2 + t 2 ^ 2) := by
  rw [Fin.sum_univ_six]
  rw [show build6 r t 0 = r 0 from rfl, show build6 r t 1 = r 1 from rfl,
    show build6 r t 2 = r 2 from rfl, show build6 r t 3 = t 0 from rfl,
    show build6 r t 4 = t 1 from rfl, show build6 r t 5 = t 2 from rfl]
  ring

theorem square_norm_unit_translation :
    euclidOps.square_norm (build6 0 ![1, 0, 0]) = 1 := by
  show (∑ j, build6 (0 : V3) ![1, 0, 0] j ^ 2) = 1
  rw [sum_sq_build6]
  norm_num

theorem square_norm_zero : euclidOps.square_norm 0 = 0 := by
  show (∑ j, ((0 : V6) j) ^ 2) = 0
  simp

theorem mean_step_osc (m : V6) :
    mean_step euclidOps 2 oscBatch (fun _ => 1) m = build6 0 ![1, 0, 0] - m := by
  show m + ∑ i ∈ Finset.range 2, (1 : ℝ) • (oscBatch i - m) =
    build6 0 ![1, 0, 0] - m
  rw [Finset.sum_range_succ, Finset.sum_range_one]
  rw [show oscBatch 0 = identity from rfl,
    show oscBatch 1 = build6 0 ![1, 0, 0] from rfl, identity_eq_zero,
    one_smul, one_smul]
  abel

theorem mean_seq_osc (k : ℕ) :
    mean_seq euclidOps 2 oscBatch (fun _ => 1) k =
      (if k % 2 = 0 then 0 else build6 0 ![1, 0, 0]) := by
  induction k with
  | zero =>
      show oscBatch 0 = _
      rw [show oscBatch 0 = identity from rfl, identity_eq_zero, if_pos rfl]
  | succ k ih =>
      show mean_step euclidOps 2 oscBatch (fun _ => 1)
        (mean_seq euclidOps 2 oscBatch (fun _ => 1) k) = _
      rw [mean_step_osc, ih]
      by_cases h : k % 2 = 0
      · rw [if_pos h, if_neg (by omega), sub_zero]
      · rw [if_neg h, if_pos (by omega), sub_self]

/-- Claim C4: for every valid SE(3) element `p` (canonical rotation part, so
the collaborator canonicalization fixes it), `compose(p, inverse(p))` is the
identity element and `inverse(inverse(p))` is `p` — proved exactly, which is
stronger than the claimed within-tolerance equality, for every collaborator
satisfying the spec-modelled laws. -/
theorem C4_compose_inverse_identity (R : RotationPrimitives)
    (hR : LawfulRotationPrimitives R) (p : V6)
    (hp : R.regularize (rotPart p) = rotPart p) :
    compose R p (inverse R p) = identity ∧ inverse R (inverse R p) = p := by
  have key : ∀ (A B : M3) (v : V3), A * B = 1 → A.mulVec (-(B.mulVec (-v))) = v := by
    intro A B v hAB
    simp only [Matrix.mulVec_neg, neg_neg]
    rw [Matrix.mulVec_mulVec, hAB, Matrix.one_mulVec]
  have hq : regularize R.regularize p = p := by
    unfold regularize
    rw [hp, build6_eta]
  have hnegreg : R.regularize (-(rotPart p)) = -(rotPart p) :=
    hR.regularize_neg _ hp
  have hinv : inverse R p = build6 (-(rotPart p))
      ((R.matrix_from_rotation_vector (-(rotPart p))).mulVec (-(transPart p))) := by
    simp only [inverse]
    rw [hq]
    unfold regularize
    rw [rotPart_build6, transPart_build6, hnegreg]
  constructor
  · rw [hinv]
    simp only [compose]
    rw [rotPart_build6, transPart_build6, hR.closest_of_matrix,
      hR.closest_of_matrix, Matrix.mulVec_mulVec, hR.matrix_mul_neg,
      hR.vector_of_one, Matrix.one_mulVec, neg_add_cancel]
    unfold regularize
    rw [rotPart_build6, transPart_build6, hR.regularize_zero]
    rfl
  · rw [hinv]
    simp only [inverse]
    have hq2 : regularize R.regularize
        (build6 (-(rotPart p))
          ((R.matrix_from_rotation_vector (-(rotPart p))).mulVec
            (-(transPart p)))) =
        build6 (-(rotPart p))
          ((R.matrix_from_rotation_vector (-(rotPart p))).mulVec
            (-(transPart p))) := by
      unfold regularize
      rw [rotPart_build6, transPart_build6, hnegreg]
    rw [hq2, rotPart_build6, transPart_build6, neg_neg,
      key _ _ _ (hR.matrix_mul_neg (rotPart p))]
    unfold regularize
    rw [rotPart_build6, transPart_build6, hp, build6_eta]

/-- Claim C4, witness: the theorem applied to the law-abiding degenerate
collaborator and the identity element, whose rotation part is canonical. -/
theorem C4_compose_inverse_identity_witness :
    trivialRotations.regularize (rotPart identity) = rotPart identity ∧
    compose trivialRotations identity (inverse trivialRotations identity) =
      identity ∧
    inverse trivialRotations (inverse trivialRotations identity) = identity :=
  ⟨rfl,
    (C4_compose_inverse_identity trivialRotations
      ⟨rfl, fun _ _ => rfl, fun _ => one_mul 1, fun _ => rfl, rfl⟩
      identity rfl).1,
    (C4_compose_inverse_identity trivialRotations
      ⟨rfl, fun _ _ => rfl, fun _ => one_mul 1, fun _ => rfl, rfl⟩
      identity rfl).2⟩

/-- Claim C6, counterexample: `regularize` mutates its input array.  On the
heap whose array 0 holds `[4,0,0,1,2,3]` — rotation angle `4 > π`, so the
rotation block is not canonical — the array holds different values after the
call than before. -/
theorem C6_regularize_mutates_input :
    ((regularizeS specCanonicalize mutState 0).1) 0 ≠ mutState 0 := by
  intro h
  have h' : regularize specCanonicalize (build6 ![4, 0, 0] ![1, 2, 3]) =
      build6 ![4, 0, 0] ![1, 2, 3] := by
    simpa [regularizeS, mutState] using h
  have hrot := congrArg rotPart h'
  rw [regularize, rotPart_build6, rotPart_build6] at hrot
  have hn4 : norm3 ![4, 0, 0] = 4 := norm3_single 4 (by norm_num)
  have h2π : (0:ℝ) < 2 * π := by positivity
  have hceil4 : (⌈(4:ℝ) / (2 * π) - 1 / 2⌉ : ℤ) = 1 := by
    rw [Int.ceil_eq_iff]
    push_cast
    constructor
    · rw [show (1:ℝ) - 1 = 0 by norm_num, sub_pos, lt_div_iff₀ h2π]
      linarith [Real.pi_lt_four]
    · rw [sub_le_iff_le_add, div_le_iff₀ h2π]
      nlinarith [Real.pi_gt_three]
  unfold specCanonicalize at hrot
  rw [hn4, if_neg (by norm_num), hceil4] at hrot
  have h0 := congrFun hrot 0
  simp only [Pi.smul_apply, smul_eq_mul, Matrix.cons_val_zero, Int.cast_one] at h0
  field_simp at h0

/-- Claim C6, amended: `regularize` writes the canonical rotation block into
its input array in place and returns that very array (its result aliases the
input, it is not fresh); an input whose rotation part is already canonical
(magnitude at most `π`) keeps exactly its values. -/
theorem C6_canonical_input_preserved (σ : Store) (a : ℕ)
    (h : norm3 (rotPart (σ a)) ≤ π) :
    (regularizeS specCanonicalize σ a).1 = σ ∧
    (regularizeS specCanonicalize σ a).2 = a := by
  constructor
  · funext b
    show (if b = a then regularize specCanonicalize (σ a) else σ b) = σ b
    by_cases hb : b = a
    · rw [if_pos hb, hb]
      unfold regularize
      rw [specCanonicalize_fixed _ h, build6_eta]
    · rw [if_neg hb]
  · rfl

/-- Claim C6, witness for the amended theorem: a heap holding a transformation
with rotation angle `1 ≤ π` is unchanged by `regularize`, and the returned
address is the input address. -/
theorem C6_canonical_input_preserved_witness :
    norm3 (rotPart (calmState 0)) ≤ π ∧
    (regularizeS specCanonicalize calmState 0).1 = calmState ∧
    (regularizeS specCanonicalize calmState 0).2 = 0 := by
  have hc : calmState 0 = build6 ![1, 0, 0] ![5, 6, 7] := rfl
  have h : norm3 (rotPart (calmState 0)) ≤ π := by
    rw [hc, rotPart_build6, norm3_single 1 (by norm_num)]
    linarith [Real.pi_gt_three]
  exact ⟨h, (C6_canonical_input_preserved calmState 0 h).1,
    (C6_canonical_input_preserved calmState 0 h).2⟩

/-- Claim C2, amended: `group_log` from the identity has no dedicated near-π
branch: for every point whose rotation angle `θ` is at least the small-angle
threshold — in particular every `θ` near `π` — the translation coefficients
come from the single generic closed-form branch `c1 = -0.5`,
`c2 = (1 - 0.5·θ·sin θ/(1 - cos θ))/θ²`. -/
theorem C2_generic_branch_covers_near_pi (transfo : V6) (epsilon : ℝ)
    (h0 : ¬ norm3 (rotPart transfo) = 0)
    (hε : ¬ norm3 (rotPart transfo) < epsilon) :
    group_log_from_identity transfo epsilon =
      build6 (rotPart transfo)
        (transPart transfo
          + (-0.5 : ℝ) • (skew (rotPart transfo)).mulVec (transPart transfo)
          + ((1 - 0.5 * norm3 (rotPart transfo) *
                Real.sin (norm3 (rotPart transfo)) /
                (1 - Real.cos (norm3 (rotPart transfo)))) /
              norm3 (rotPart transfo) ^ 2) •
            ((skew (rotPart transfo) * skew (rotPart transfo)).mulVec
              (transPart transfo))) := by
  simp only [group_log_from_identity, log_coef_1, log_coef_2, if_neg h0,
    if_neg hε]

/-- Claim C2, witness for the amended theorem: the point with rotation vector
`[1,0,0]` (angle `1`, in the generic branch) and translation `[0,1,0]`. -/
theorem C2_generic_branch_witness :
    ¬ norm3 (rotPart (build6 ![1, 0, 0] ![0, 1, 0])) = 0 ∧
    ¬ norm3 (rotPart (build6 ![1, 0, 0] ![0, 1, 0])) < EPSILON ∧
    group_log_from_identity (build6 ![1, 0, 0] ![0, 1, 0]) EPSILON =
      build6 (rotPart (build6 ![1, 0, 0] ![0, 1, 0]))
        (transPart (build6 ![1, 0, 0] ![0, 1, 0])
          + (-0.5 : ℝ) • (skew (rotPart (build6 ![1, 0, 0] ![0, 1, 0]))).mulVec
              (transPart (build6 ![1, 0, 0] ![0, 1, 0]))
          + ((1 - 0.5 * norm3 (rotPart (build6 ![1, 0, 0] ![0, 1, 0])) *
                Real.sin (norm3 (rotPart (build6 ![1, 0, 0] ![0, 1, 0]))) /
                (1 - Real.cos (norm3 (rotPart (build6 ![1, 0, 0] ![0, 1, 0]))))) /
              norm3 (rotPart (build6 ![1, 0, 0] ![0, 1, 0])) ^ 2) •
            ((skew (rotPart (build6 ![1, 0, 0] ![0, 1, 0])) *
                skew (rotPart (build6 ![1, 0, 0] ![0, 1, 0]))).mulVec
              (transPart (build6 ![1, 0, 0] ![0, 1, 0])))) := by
  have h1 : norm3 (rotPart (build6 ![1, 0, 0] ![0, 1, 0])) = 1 := by
    rw [rotPart_build6]
    exact norm3_single 1 (by norm_num)
  have h0 : ¬ norm3 (rotPart (build6 ![1, 0, 0] ![0, 1, 0])) = 0 := by
    rw [h1]; norm_num
  have hε : ¬ norm3 (rotPart (build6 ![1, 0, 0] ![0, 1, 0])) < EPSILON := by
    rw [h1]; unfold EPSILON; norm_num
  exact ⟨h0, hε, C2_generic_branch_covers_near_pi _ _ h0 hε⟩

/-- Claim C2, counterexample: at the angle `5π/6` — within `0.6` of `π` — the
coefficient `c2` computed by `group_log` equals the generic closed form and is
not the value of the claimed near-π series `c2 = (1 - (θ/2)·(-δ/2 - δ³/24))/θ²`
with `δ = θ - π`: the code has no dedicated near-π branch. -/
theorem C2_counterexample :
    |5 * π / 6 - π| < 0.6 ∧
    log_coef_2 (5 * π / 6) EPSILON =
      (1 - 0.5 * (5 * π / 6) * Real.sin (5 * π / 6) /
        (1 - Real.cos (5 * π / 6))) / (5 * π / 6) ^ 2 ∧
    log_coef_2 (5 * π / 6) EPSILON ≠
      (1 - 5 * π / 6 / 2 *
        (-(5 * π / 6 - π) / 2 - (5 * π / 6 - π) ^ 3 / 24)) / (5 * π / 6) ^ 2 := by
  have hπl : (3.141592 : ℝ) < π := Real.pi_gt_d6
  have hπu : π < 3.141593 := Real.pi_lt_d6
  have hs3 : Real.sqrt 3 ^ 2 = 3 := Real.sq_sqrt (by norm_num)
  have hs3nn : (0:ℝ) ≤ Real.sqrt 3 := Real.sqrt_nonneg 3
  have hs2 : Real.sqrt 3 < 1.7320509 := by
    nlinarith [sq_nonneg (Real.sqrt 3 - 1.7320509)]
  have hθpos : (0:ℝ) < 5 * π / 6 := by positivity
  have hθ0 : ¬ (5 * π / 6 : ℝ) = 0 := ne_of_gt hθpos
  have hθε : ¬ (5 * π / 6 : ℝ) < EPSILON := by
    unfold EPSILON
    push_neg
    nlinarith
  have hsin : Real.sin (5 * π / 6) = 1 / 2 := by
    rw [show (5:ℝ) * π / 6 = π - π / 6 by ring, Real.sin_pi_sub,
      Real.sin_pi_div_six]
  have hcos : Real.cos (5 * π / 6) = -(Real.sqrt 3 / 2) := by
    rw [show (5:ℝ) * π / 6 = π - π / 6 by ring, Real.cos_pi_sub,
      Real.cos_pi_div_six]
  have hcval : log_coef_2 (5 * π / 6) EPSILON =
      (1 - 0.5 * (5 * π / 6) * Real.sin (5 * π / 6) /
        (1 - Real.cos (5 * π / 6))) / (5 * π / 6) ^ 2 := by
    unfold log_coef_2
    rw [if_neg hθ0, if_neg hθε]
  refine ⟨?_, hcval, ?_⟩
  · rw [show (5:ℝ) * π / 6 - π = -(π / 6) by ring, abs_neg,
      abs_of_nonneg (by positivity)]
    linarith
  · rw [hcval, hsin, hcos]
    have hden : (0:ℝ) < 1 - -(Real.sqrt 3 / 2) := by
      rw [sub_neg_eq_add]
      positivity
    have hθsq : (0:ℝ) < (5 * π / 6) ^ 2 := by positivity
    have hX : 0.5 * (5 * π / 6) * (1 / 2) / (1 - -(Real.sqrt 3 / 2)) =
        5 * π / 12 * (2 - Real.sqrt 3) := by
      rw [sub_neg_eq_add, div_eq_iff (ne_of_gt (by positivity : (0:ℝ) < 1 + Real.sqrt 3 / 2))]
      linear_combination (5 * π / 24) * hs3
    have hY : 5 * π / 6 / 2 *
        (-(5 * π / 6 - π) / 2 - (5 * π / 6 - π) ^ 3 / 24) =
        5 * π / 12 * (π / 12 + π ^ 3 / 5184) := by
      ring
    have hπ3 : π ^ 3 < 3.141593 ^ 3 := by
      nlinarith [Real.pi_pos]
    have hbase : π / 12 + π ^ 3 / 5184 < 2 - Real.sqrt 3 := by
      nlinarith
    have hXY : 5 * π / 12 * (π / 12 + π ^ 3 / 5184) <
        5 * π / 12 * (2 - Real.sqrt 3) := by
      have h512 : (0:ℝ) < 5 * π / 12 := by positivity
      exact (mul_lt_mul_left h512).mpr hbase
    intro heq
    have h1 : 1 - 0.5 * (5 * π / 6) * (1 / 2) / (1 - -(Real.sqrt 3 / 2)) =
        1 - 5 * π / 6 / 2 *
          (-(5 * π / 6 - π) / 2 - (5 * π / 6 - π) ^ 3 / 24) := by
      have h2 := congrArg (fun z => z * (5 * π / 6) ^ 2) heq
      simpa [div_mul_cancel₀, ne_of_gt hθsq] using h2
    rw [hX, hY] at h1
    linarith

/-- Claim C3 (code bug): the `while True` loop of `riemannian_mean` has no
maximum-iteration cap, and on the two-point batch of pure translations
`[0,0,0,0,0,0]` and `[0,0,0,1,0,0]` with weights `[1,1]` the estimate
oscillates between the two points forever: no iteration ever passes the
variance-scaled convergence test, so the loop never terminates normally and
the caller receives neither a best estimate nor a tolerance signal. -/
theorem C3_loop_never_terminates :
    ¬ riemannian_mean_terminates euclidOps 2 oscBatch (fun _ => 1) EPSILON := by
  rintro ⟨k, hk⟩
  unfold mean_converged_at at hk
  rw [mean_seq_osc, mean_seq_osc] at hk
  unfold riemannian_variance at hk
  by_cases h : k % 2 = 0
  · rw [if_pos h, if_neg (show ¬ (k + 1) % 2 = 0 by omega),
      if_neg (show ¬ 2 < 2 by norm_num),
      show (Finset.Ico 1 2 : Finset ℕ) = {1} by decide, Finset.sum_singleton,
      show oscBatch 1 = build6 0 ![1, 0, 0] from rfl] at hk
    have e1 : euclidOps.riemannian_log (build6 0 ![1, 0, 0]) 0 =
        build6 0 ![1, 0, 0] := by
      show build6 0 ![1, 0, 0] - 0 = build6 0 ![1, 0, 0]
      rw [sub_zero]
    rw [e1, square_norm_unit_translation] at hk
    simp only [one_mul, mul_one] at hk
    unfold EPSILON at hk
    norm_num at hk
  · rw [if_neg h, if_pos (show (k + 1) % 2 = 0 by omega),
      if_neg (show ¬ 2 < 2 by norm_num),
      show (Finset.Ico 1 2 : Finset ℕ) = {1} by decide, Finset.sum_singleton,
      show oscBatch 1 = build6 0 ![1, 0, 0] from rfl] at hk
    have e2 : euclidOps.riemannian_log 0 (build6 0 ![1, 0, 0]) =
        -build6 0 ![1, 0, 0] := by
      show (0 : V6) - build6 0 ![1, 0, 0] = _
      rw [zero_sub]
    have e3 : euclidOps.riemannian_log (build6 0 ![1, 0, 0])
        (build6 0 ![1, 0, 0]) = 0 := by
      show build6 0 ![1, 0, 0] - build6 0 ![1, 0, 0] = 0
      rw [sub_self]
    have e4 : euclidOps.square_norm (-build6 0 ![1, 0, 0]) = 1 := by
      show (∑ j, (-build6 (0 : V3) ![1, 0, 0]) j ^ 2) = 1
      simp only [Pi.neg_apply, neg_sq]
      exact square_norm_unit_translation
    rw [e2, e3, e4, square_norm_zero] at hk
    simp only [mul_zero] at hk
    exact absurd hk (by norm_num)

/-- Claim C7 (code bug): `riemannian_variance` sums over `range(1, n)` and so
skips the first data point: on the batch `[0,0,0,1,0,0]`, `[0,0,0,2,0,0]` with
unit weights and the identity as reference point the code computes `4`,
whereas the claimed sum of weighted squared norms over every input point is
`1 + 4 = 5`. -/
theorem C7_variance_skips_first_point :
    riemannian_variance euclidOps identity 2 varBatch (fun _ => 1) = 4 ∧
    (∑ i ∈ Finset.range 2,
      (1 : ℝ) * euclidOps.square_norm
        (euclidOps.riemannian_log (varBatch i) identity)) = 5 := by
  have hlog : ∀ q : V6, euclidOps.riemannian_log q identity = q := by
    intro q
    show q - identity = q
    rw [identity_eq_zero, sub_zero]
  have hv0 : varBatch 0 = build6 0 ![1, 0, 0] := rfl
  have hv1 : varBatch 1 = build6 0 ![2, 0, 0] := rfl
  have h2 : euclidOps.square_norm (build6 0 ![2, 0, 0]) = 4 := by
    show (∑ j, build6 (0 : V3) ![2, 0, 0] j ^ 2) = 4
    rw [sum_sq_build6]
    norm_num
  constructor
  · unfold riemannian_variance
    rw [if_neg (by norm_num),
      show (Finset.Ico 1 2 : Finset ℕ) = {1} by decide, Finset.sum_singleton,
      hv1, hlog, h2]
    norm_num
  · rw [Finset.sum_range_succ, Finset.sum_range_one, hv0, hv1, hlog, hlog,
      square_norm_unit_translation, h2]
    norm_num

/-- Claim C8, counterexample: a singleton batch — allowed by the claim, which
only requires at least one point for the closed-form barycenter — is rejected
by `exponential_barycenter` with `ValueError`. -/
theorem C8_singleton_batch_rejected :
    exponential_barycenter trivialRotations 1 (fun _ => identity) (fun _ => 1)
      EPSILON = .error .valueError := by
  unfold exponential_barycenter
  rw [if_pos (by norm_num)]

/-- Claim C8, amended: `exponential_barycenter` raises `ValueError` exactly
when the batch has fewer than two points, and the iterative `riemannian_mean`
raises nothing at all for a singleton batch — its small-batch branch only logs
a message and execution proceeds into the loop. -/
theorem C8_barycenter_guards :
    (∀ (R : RotationPrimitives) (n : ℕ) (transfo_vectors : ℕ → V6)
      (weights : ℕ → ℝ) (epsilon : ℝ),
      exponential_barycenter R n transfo_vectors weights epsilon =
          .error .valueError ↔ n < 2)
    ∧ riemannian_mean_pre 1 "left" = .ok () := by
  constructor
  · intro R n tv w ε
    constructor
    · intro h
      by_contra hn
      unfold exponential_barycenter at h
      rw [if_neg hn] at h
      exact absurd h (by simp)
    · intro hn
      unfold exponential_barycenter
      rw [if_pos hn]
  · unfold riemannian_mean_pre
    rw [if_pos (Or.inl rfl), if_neg (by norm_num)]
